import Mathlib

/-
Shallow embedding of the math-ts geometry kernel (src/src/math.ts and the
unnamed companion module).  JavaScript numbers are modelled by the type F
below: a symbolic IEEE-style scalar with NaN, plus/minus infinity, and exact
rational finite values (rounding of finite arithmetic is not modelled; every
claim below involves only exactly representable computations).  Operations
translate the TypeScript statement-by-statement; in-place mutation of an
output buffer becomes explicit functional state passing.
-/

/-- IEEE-style scalar: NaN, minus infinity, plus infinity, or an exact finite
value.  Signed zero is not distinguished (no claim depends on it). -/
inductive F where
  | nan : F
  | neginf : F
  | inf : F
  | finite : ℚ → F
deriving DecidableEq

namespace F

/-- JavaScript comparison x <= y (false whenever either side is NaN). -/
def le : F → F → Bool
  | nan, _ => false
  | _, nan => false
  | neginf, _ => true
  | finite _, neginf => false
  | finite a, finite b => a ≤ b
  | finite _, inf => true
  | inf, inf => true
  | inf, finite _ => false
  | inf, neginf => false

/-- JavaScript comparison x < y (false whenever either side is NaN). -/
def lt : F → F → Bool
  | nan, _ => false
  | _, nan => false
  | neginf, neginf => false
  | neginf, _ => true
  | finite _, neginf => false
  | finite a, finite b => a < b
  | finite _, inf => true
  | inf, _ => false

/-- JavaScript Math.min (NaN if either argument is NaN). -/
def fmin : F → F → F
  | nan, _ => nan
  | _, nan => nan
  | neginf, _ => neginf
  | _, neginf => neginf
  | inf, y => y
  | x, inf => x
  | finite a, finite b => finite (min a b)

/-- JavaScript Math.max (NaN if either argument is NaN). -/
def fmax : F → F → F
  | nan, _ => nan
  | _, nan => nan
  | inf, _ => inf
  | _, inf => inf
  | neginf, y => y
  | x, neginf => x
  | finite a, finite b => finite (max a b)

/-- IEEE addition on the symbolic scalars (finite arithmetic exact). -/
def add : F → F → F
  | nan, _ => nan
  | _, nan => nan
  | inf, neginf => nan
  | neginf, inf => nan
  | inf, _ => inf
  | _, inf => inf
  | neginf, _ => neginf
  | _, neginf => neginf
  | finite a, finite b => finite (a + b)

/-- IEEE negation. -/
def neg : F → F
  | nan => nan
  | inf => neginf
  | neginf => inf
  | finite a => finite (-a)

/-- IEEE subtraction. -/
def sub (x y : F) : F := add x (neg y)

/-- IEEE multiplication (infinity times zero is NaN). -/
def mul : F → F → F
  | nan, _ => nan
  | _, nan => nan
  | inf, inf => inf
  | inf, neginf => neginf
  | neginf, inf => neginf
  | neginf, neginf => inf
  | inf, finite a => if a = 0 then nan else if 0 < a then inf else neginf
  | finite a, inf => if a = 0 then nan else if 0 < a then inf else neginf
  | neginf, finite a => if a = 0 then nan else if 0 < a then neginf else inf
  | finite a, neginf => if a = 0 then nan else if 0 < a then neginf else inf
  | finite a, finite b => finite (a * b)

/-- IEEE division (zero taken as positive zero: division of a nonzero finite
value by zero gives a signed infinity, zero by zero gives NaN). -/
def div : F → F → F
  | nan, _ => nan
  | _, nan => nan
  | inf, inf => nan
  | inf, neginf => nan
  | neginf, inf => nan
  | neginf, neginf => nan
  | inf, finite b => if 0 ≤ b then inf else neginf
  | neginf, finite b => if 0 ≤ b then neginf else inf
  | finite _, inf => finite 0
  | finite _, neginf => finite 0
  | finite a, finite b =>
      if b = 0 then (if a = 0 then nan else if 0 < a then inf else neginf)
      else finite (a / b)

instance : Add F := ⟨F.add⟩

instance : Neg F := ⟨F.neg⟩

instance : Sub F := ⟨F.sub⟩

instance : Mul F := ⟨F.mul⟩

instance : Div F := ⟨F.div⟩

instance : Zero F := ⟨F.finite 0⟩

instance : One F := ⟨F.finite 1⟩

instance : Min F := ⟨F.fmin⟩

instance : Max F := ⟨F.fmax⟩

end F

/-- JavaScript Number.isInteger: true exactly on finite integral values. -/
def Number.isInteger : F → Bool
  | F.finite q => q.den = 1
  | _ => false

/-- The integer-refinement constructor from the source: throws when the
argument is not an integral number, otherwise returns it unchanged.  The
thrown error is modelled as the error branch of Except. -/
def int (n : F) : Except String F :=
  if Number.isInteger n then Except.ok n else Except.error "not an integer"

/-- 2D cartesian vector over a scalar type (source type Vec2, an array of two
numbers: field x is index 0, field y is index 1). -/
structure Vec2 (α : Type) where
  x : α
  y : α
deriving DecidableEq

/-- 3D cartesian vector (source type Vec3: x is index 0, y index 1, z index 2). -/
structure Vec3 (α : Type) where
  x : α
  y : α
  z : α
deriving DecidableEq

/-- Compact 2D affine matrix (source type Mat2A, six numbers: a00 a01 dx in
the first row, a10 a11 dy in the second, indices 0..5 in that order). -/
structure Mat2A (α : Type) where
  a00 : α
  a01 : α
  dx : α
  a10 : α
  a11 : α
  dy : α
deriving DecidableEq

/-- Row-major 4x4 matrix (source type Mat4, sixteen numbers; field aij is the
entry at array index 4*i + j). -/
structure Mat4 (α : Type) where
  a00 : α
  a01 : α
  a02 : α
  a03 : α
  a10 : α
  a11 : α
  a12 : α
  a13 : α
  a20 : α
  a21 : α
  a22 : α
  a23 : α
  a30 : α
  a31 : α
  a32 : α
  a33 : α
deriving DecidableEq

/-- MatA is a refinement of Mat4 (same storage, last row invariantly
0 0 0 1); the refinement is stated as a property, not a separate layout. -/
abbrev MatA (α : Type) := Mat4 α

namespace Vec2

/-- Source Vec2.lper with a fresh destination: saves x = u[0], writes
dst[0] = -u[1], dst[1] = x. -/
def lper (u : Vec2 F) : Vec2 F :=
  let x := u.x
  ⟨-u.y, x⟩

/-- Source Vec2.lper called with the destination aliased to u itself: the
two writes are applied to u in statement order after x has been saved. -/
def lperInPlace (u : Vec2 F) : Vec2 F :=
  let x := u.x
  let u1 : Vec2 F := { u with x := -u.y }
  { u1 with y := x }

/-- Source Vec2.min (component-wise Math.min). -/
def min {α : Type} [Min α] (u v : Vec2 α) : Vec2 α :=
  ⟨Min.min u.x v.x, Min.min u.y v.y⟩

/-- Source Vec2.max (component-wise Math.max). -/
def max {α : Type} [Max α] (u v : Vec2 α) : Vec2 α :=
  ⟨Max.max u.x v.x, Max.max u.y v.y⟩

/-- Source Vec2.uniform. -/
def uniform {α : Type} (s : α) : Vec2 α := ⟨s, s⟩

end Vec2

namespace Vec3

/-- Source Vec3.min (component-wise Math.min). -/
def min {α : Type} [Min α] (u v : Vec3 α) : Vec3 α :=
  ⟨Min.min u.x v.x, Min.min u.y v.y, Min.min u.z v.z⟩

/-- Source Vec3.max (component-wise Math.max). -/
def max {α : Type} [Max α] (u v : Vec3 α) : Vec3 α :=
  ⟨Max.max u.x v.x, Max.max u.y v.y, Max.max u.z v.z⟩

/-- Source Vec3.uniform. -/
def uniform {α : Type} (s : α) : Vec3 α := ⟨s, s, s⟩

end Vec3

namespace Mat2A

/-- Source Mat2A.transformPoint with a fresh destination: x and y are saved
from P before the two row computations are written. -/
def transformPoint (M : Mat2A F) (P : Vec2 F) : Vec2 F :=
  let x := P.x
  let y := P.y
  ⟨M.a00 * x + M.a01 * y + M.dx, M.a10 * x + M.a11 * y + M.dy⟩

/-- Source Mat2A.transformPoint with the destination aliased to P: writes
are applied to P in statement order, after x and y have been saved. -/
def transformPointInPlace (M : Mat2A F) (P : Vec2 F) : Vec2 F :=
  let x := P.x
  let y := P.y
  let P1 : Vec2 F := { P with x := M.a00 * x + M.a01 * y + M.dx }
  { P1 with y := M.a10 * x + M.a11 * y + M.dy }

end Mat2A

/-- Axis-aligned 2D bounding box (source type Box2 is the pair of corner
points: index 0 is the minimum corner P0, index 1 the maximum corner P1). -/
structure Box2 (α : Type) where
  P0 : Vec2 α
  P1 : Vec2 α
deriving DecidableEq

/-- Axis-aligned 3D bounding box (source type Box3 with fields P0, P1). -/
structure Box3 (α : Type) where
  P0 : Vec3 α
  P1 : Vec3 α
deriving DecidableEq

namespace Box2

/-- Source Box2.empty: infinite sentinel corners. -/
def empty : Box2 F := ⟨Vec2.uniform F.inf, Vec2.uniform F.neginf⟩

/-- Source Box2.expand: grow both corners by one point. -/
def expand (B : Box2 F) (P : Vec2 F) : Box2 F :=
  ⟨Vec2.min B.P0 P, Vec2.max B.P1 P⟩

/-- Source Box2.expandAll: the loop folds each point through the same
min/max corner update as expand, in order. -/
def expandAll (B : Box2 F) (Ps : List (Vec2 F)) : Box2 F :=
  Ps.foldl (fun b P => ⟨Vec2.min b.P0 P, Vec2.max b.P1 P⟩) B

/-- Source Box2.fromPoints: resets the destination to empty, then expands by
all points; the prior content of the destination (parameter _dst) is
overwritten and never read. -/
def fromPoints (Ps : List (Vec2 F)) (_dst : Box2 F) : Box2 F :=
  let b := Box2.empty
  Box2.expandAll b Ps

/-- Source Box2.containsInEx: half-open membership test via JavaScript
comparisons, in the source order of the conjuncts. -/
def containsInEx (B : Box2 F) (P : Vec2 F) : Bool :=
  F.le B.P0.x P.x && F.lt P.x B.P1.x && F.le B.P0.y P.y && F.lt P.y B.P1.y

end Box2

namespace Box3

/-- Source Box3.empty: infinite sentinel corners. -/
def empty : Box3 F := ⟨Vec3.uniform F.inf, Vec3.uniform F.neginf⟩

/-- Source Box3.expandAll: folds each point through the min/max corner
update, in order. -/
def expandAll (B : Box3 F) (Ps : List (Vec3 F)) : Box3 F :=
  Ps.foldl (fun b P => ⟨Vec3.min b.P0 P, Vec3.max b.P1 P⟩) B

/-- Source Box3.fromPoints: expands the destination by all points.  Unlike
Box2.fromPoints, it does NOT reset a caller-supplied destination to empty;
the empty start happens only through the default argument when the
destination is omitted. -/
def fromPoints (Ps : List (Vec3 F)) (dst : Box3 F) : Box3 F :=
  Box3.expandAll dst Ps

end Box3

/-- Translation of the inner counting loop of Box2.integerPoints: the
integers x with lo ≤ x and x ≤ hi, ascending (for an integer x the loop
condition x ≤ hi is equivalent to x ≤ floor hi, which gives the count). -/
def intsUpTo (lo : ℤ) (hi : ℚ) : List ℤ :=
  (List.range (⌊hi⌋ + 1 - lo).toNat).map (fun (i : ℕ) => lo + (i : ℤ))

/-- The colexicographic product of the two loops of Box2.integerPoints:
for each x of xs in order, all pairs (x, y) with y running over ys. -/
def crossColex (xs ys : List ℤ) : List (ℤ × ℤ) :=
  match xs with
  | [] => []
  | x :: rest => ys.map (fun y => (x, y)) ++ crossColex rest ys

/-- Strict column-major (x-major) order on lattice points. -/
def xyLexLt (p q : ℤ × ℤ) : Prop :=
  p.1 < q.1 ∨ (p.1 = q.1 ∧ p.2 < q.2)

namespace Box2

/-- Source Box2.integerPoints: for finite corners, the nested loops run x
from floor x0 while x ≤ x1 and, inside, y from floor y0 while y ≤ y1,
yielding (x, y).  (With a non-finite corner the source generator either
yields nothing or never terminates; no claim covers that case and the
embedding returns the empty list there.) -/
def integerPoints (B : Box2 F) : List (ℤ × ℤ) :=
  match B.P0.x, B.P0.y, B.P1.x, B.P1.y with
  | F.finite x0, F.finite y0, F.finite x1, F.finite y1 =>
      crossColex (intsUpTo ⌊x0⌋ x1) (intsUpTo ⌊y0⌋ y1)
  | _, _, _, _ => []

end Box2

namespace Mat4

/-- Source Mat4.transformPoint: homogeneous point transform.  x, y, z are
read from P, the weight w is computed from the last row, and each of the
three transformed rows is divided by w.  The division is not guarded, so
the function is total and a zero weight flows through IEEE division. -/
def transformPoint {α : Type} [Add α] [Mul α] [Div α] (M : Mat4 α) (P : Vec3 α) : Vec3 α :=
  let x := P.x
  let y := P.y
  let z := P.z
  let w := M.a30 * x + M.a31 * y + M.a32 * z + M.a33
  ⟨(M.a00 * x + M.a01 * y + M.a02 * z + M.a03) / w,
    (M.a10 * x + M.a11 * y + M.a12 * z + M.a13) / w,
    (M.a20 * x + M.a21 * y + M.a22 * z + M.a23) / w⟩

/-- The last row of a Mat4 (array entries 12, 13, 14, 15). -/
def lastRow {α : Type} (A : Mat4 α) : α × α × α × α :=
  (A.a30, A.a31, A.a32, A.a33)

end Mat4

namespace MatA

/-- Source MatA.eye: the identity affine matrix. -/
def eye {α : Type} [Zero α] [One α] : MatA α :=
  ⟨1, 0, 0, 0, 0, 1, 0, 0, 0, 0, 1, 0, 0, 0, 0, 1⟩

/-- Source MatA.translate: adds the vector into the translation column
(array entries 3, 7, 11). -/
def translate {α : Type} [Add α] (A : MatA α) (u : Vec3 α) : MatA α :=
  { A with a03 := A.a03 + u.x, a13 := A.a13 + u.y, a23 := A.a23 + u.z }

/-- Source MatA.translation. -/
def translation {α : Type} [Zero α] [One α] [Add α] (u : Vec3 α) : MatA α :=
  translate eye u

/-- Source MatA.scaleX: multiplies array entries 0..3 by s. -/
def scaleX {α : Type} [Mul α] (A : MatA α) (s : α) : MatA α :=
  { A with a00 := A.a00 * s, a01 := A.a01 * s, a02 := A.a02 * s, a03 := A.a03 * s }

/-- Source MatA.scaleY: multiplies array entries 4..7 by s. -/
def scaleY {α : Type} [Mul α] (A : MatA α) (s : α) : MatA α :=
  { A with a10 := A.a10 * s, a11 := A.a11 * s, a12 := A.a12 * s, a13 := A.a13 * s }

/-- Source MatA.scaleZ: multiplies array entries 8..11 by s. -/
def scaleZ {α : Type} [Mul α] (A : MatA α) (s : α) : MatA α :=
  { A with a20 := A.a20 * s, a21 := A.a21 * s, a22 := A.a22 * s, a23 := A.a23 * s }

/-- Source MatA.scale: multiplies array entries 0..11 by s. -/
def scale {α : Type} [Mul α] (A : MatA α) (s : α) : MatA α :=
  { A with
    a00 := A.a00 * s, a01 := A.a01 * s, a02 := A.a02 * s, a03 := A.a03 * s,
    a10 := A.a10 * s, a11 := A.a11 * s, a12 := A.a12 * s, a13 := A.a13 * s,
    a20 := A.a20 * s, a21 := A.a21 * s, a22 := A.a22 * s, a23 := A.a23 * s }

/-- Source MatA.scaleVector: reads the three factors from u, then multiplies
each of the three affine rows by its factor. -/
def scaleVector {α : Type} [Mul α] (A : MatA α) (u : Vec3 α) : MatA α :=
  let sx := u.x
  let sy := u.y
  let sz := u.z
  { A with
    a00 := A.a00 * sx, a01 := A.a01 * sx, a02 := A.a02 * sx, a03 := A.a03 * sx,
    a10 := A.a10 * sy, a11 := A.a11 * sy, a12 := A.a12 * sy, a13 := A.a13 * sy,
    a20 := A.a20 * sz, a21 := A.a21 * sz, a22 := A.a22 * sz, a23 := A.a23 * sz }

/-- Source MatA.rotateX: saves the eight entries of rows 1 and 2 (array
entries 4..11; source locals a00..a13, renamed r00..r13 here to avoid the
field names), then writes the rotated rows.  Entries 12..15 untouched. -/
noncomputable def rotateX (A : MatA ℝ) (angle : ℝ) : MatA ℝ :=
  let c := Real.cos angle
  let s := Real.sin angle
  let r00 := A.a10
  let r01 := A.a11
  let r02 := A.a12
  let r03 := A.a13
  let r10 := A.a20
  let r11 := A.a21
  let r12 := A.a22
  let r13 := A.a23
  { A with
    a10 := c * r00 - s * r10, a11 := c * r01 - s * r11,
    a12 := c * r02 - s * r12, a13 := c * r03 - s * r13,
    a20 := c * r10 + s * r00, a21 := c * r11 + s * r01,
    a22 := c * r12 + s * r02, a23 := c * r13 + s * r03 }

/-- Source MatA.rotateY: saves rows 2 and 0 (array entries 8..11 into
r00..r03 and 0..3 into r10..r13), then writes the rotated rows. -/
noncomputable def rotateY (A : MatA ℝ) (angle : ℝ) : MatA ℝ :=
  let c := Real.cos angle
  let s := Real.sin angle
  let r00 := A.a20
  let r01 := A.a21
  let r02 := A.a22
  let r03 := A.a23
  let r10 := A.a00
  let r11 := A.a01
  let r12 := A.a02
  let r13 := A.a03
  { A with
    a20 := c * r00 - s * r10, a21 := c * r01 - s * r11,
    a22 := c * r02 - s * r12, a23 := c * r03 - s * r13,
    a00 := c * r10 + s * r00, a01 := c * r11 + s * r01,
    a02 := c * r12 + s * r02, a03 := c * r13 + s * r03 }

/-- Source MatA.rotateZ: saves rows 0 and 1 (array entries 0..3 into
r00..r03 and 4..7 into r10..r13), then writes the rotated rows. -/
noncomputable def rotateZ (A : MatA ℝ) (angle : ℝ) : MatA ℝ :=
  let c := Real.cos angle
  let s := Real.sin angle
  let r00 := A.a00
  let r01 := A.a01
  let r02 := A.a02
  let r03 := A.a03
  let r10 := A.a10
  let r11 := A.a11
  let r12 := A.a12
  let r13 := A.a13
  { A with
    a00 := c * r00 - s * r10, a01 := c * r01 - s * r11,
    a02 := c * r02 - s * r12, a03 := c * r03 - s * r13,
    a10 := c * r10 + s * r00, a11 := c * r11 + s * r01,
    a12 := c * r12 + s * r02, a13 := c * r13 + s * r03 }

end MatA

/-- Source class MatAComposer: a thin stateful wrapper holding one MatA and
forwarding each method to the corresponding MatA operation. -/
structure MatAComposer (α : Type) where
  A : MatA α

namespace MatAComposer

/-- Source MatAComposer.get. -/
def get {α : Type} (c : MatAComposer α) : MatA α := c.A

/-- Source MatAComposer.translate: forwards to MatA.translate. -/
def translate {α : Type} [Add α] (c : MatAComposer α) (u : Vec3 α) : MatAComposer α :=
  ⟨MatA.translate c.A u⟩

/-- Source MatAComposer.scaleX: forwards to MatA.scaleX. -/
def scaleX {α : Type} [Mul α] (c : MatAComposer α) (s : α) : MatAComposer α :=
  ⟨MatA.scaleX c.A s⟩

/-- Source MatAComposer.scaleY: forwards to MatA.scaleY. -/
def scaleY {α : Type} [Mul α] (c : MatAComposer α) (s : α) : MatAComposer α :=
  ⟨MatA.scaleY c.A s⟩

/-- Source MatAComposer.scaleZ: forwards to MatA.scaleZ. -/
def scaleZ {α : Type} [Mul α] (c : MatAComposer α) (s : α) : MatAComposer α :=
  ⟨MatA.scaleZ c.A s⟩

/-- Source MatAComposer.scale: forwards to MatA.scale. -/
def scale {α : Type} [Mul α] (c : MatAComposer α) (s : α) : MatAComposer α :=
  ⟨MatA.scale c.A s⟩

/-- Source MatAComposer.scaleVector: forwards to MatA.scaleVector. -/
def scaleVector {α : Type} [Mul α] (c : MatAComposer α) (u : Vec3 α) : MatAComposer α :=
  ⟨MatA.scaleVector c.A u⟩

/-- Source MatAComposer.rotateX: forwards to MatA.rotateX. -/
noncomputable def rotateX (c : MatAComposer ℝ) (angle : ℝ) : MatAComposer ℝ :=
  ⟨MatA.rotateX c.A angle⟩

/-- Source MatAComposer.rotateY: forwards to MatA.rotateY. -/
noncomputable def rotateY (c : MatAComposer ℝ) (angle : ℝ) : MatAComposer ℝ :=
  ⟨MatA.rotateY c.A angle⟩

/-- Source MatAComposer.rotateZ: forwards to MatA.rotateZ. -/
noncomputable def rotateZ (c : MatAComposer ℝ) (angle : ℝ) : MatAComposer ℝ :=
  ⟨MatA.rotateZ c.A angle⟩

end MatAComposer

/-- Source MatA.compose: wraps the matrix in a composer. -/
def MatA.compose {α : Type} (A : MatA α) : MatAComposer α := ⟨A⟩

/-- Source constant DEG_TO_RAD. -/
noncomputable def DEG_TO_RAD : ℝ := Real.pi / 180

/-- Source Mat4.perspective over the reals: fovy is the vertical field of
view in degrees, width and height give the viewport aspect, near and far
the clip distances. -/
noncomputable def Mat4.perspective (fovy width height near far : ℝ) : Mat4 ℝ :=
  let depth := far - near
  let c0 := near / Real.tan (0.5 * fovy * DEG_TO_RAD)
  let c1 := c0 * height / width
  ⟨c1, 0, 0, 0, 0, c0, 0, 0, 0, 0, -(near + far) / depth, (-2 * near * far) / depth,
    0, 0, -1, 0⟩

/-- JavaScript Math.floor on the scalar model. -/
def F.floor : F → F
  | F.nan => F.nan
  | F.inf => F.inf
  | F.neginf => F.neginf
  | F.finite a => F.finite ⌊a⌋

/-- JavaScript Math.hypot over the reals: square root of the sum of the
squares (the overflow-robust evaluation of the double version is invisible
over the reals). -/
noncomputable def Math.hypot (x y : ℝ) : ℝ := Real.sqrt (x ^ 2 + y ^ 2)

namespace Vec2

/-- Source Vec2.copy with a fresh destination. -/
def copy {α : Type} (v : Vec2 α) : Vec2 α := ⟨v.x, v.y⟩

/-- Source Vec2.copy with the destination aliased to v: the writes run in
statement order, each reading the current state of the shared storage. -/
def copyInPlace {α : Type} (v : Vec2 α) : Vec2 α :=
  let v1 : Vec2 α := { v with x := v.x }
  { v1 with y := v1.y }

/-- Source Vec2.sum with a fresh destination. -/
def sum {α : Type} [Add α] (u v : Vec2 α) : Vec2 α := ⟨u.x + v.x, u.y + v.y⟩

/-- Source Vec2.sum with the destination aliased to u. -/
def sumInPlaceFst {α : Type} [Add α] (u v : Vec2 α) : Vec2 α :=
  let u1 : Vec2 α := { u with x := u.x + v.x }
  { u1 with y := u1.y + v.y }

/-- Source Vec2.sum with the destination aliased to v. -/
def sumInPlaceSnd {α : Type} [Add α] (u v : Vec2 α) : Vec2 α :=
  let v1 : Vec2 α := { v with x := u.x + v.x }
  { v1 with y := u.y + v1.y }

/-- Source Vec2.diff with a fresh destination. -/
def diff {α : Type} [Sub α] (u v : Vec2 α) : Vec2 α := ⟨u.x - v.x, u.y - v.y⟩

/-- Source Vec2.diff with the destination aliased to u. -/
def diffInPlaceFst {α : Type} [Sub α] (u v : Vec2 α) : Vec2 α :=
  let u1 : Vec2 α := { u with x := u.x - v.x }
  { u1 with y := u1.y - v.y }

/-- Source Vec2.diff with the destination aliased to v. -/
def diffInPlaceSnd {α : Type} [Sub α] (u v : Vec2 α) : Vec2 α :=
  let v1 : Vec2 α := { v with x := u.x - v.x }
  { v1 with y := u.y - v1.y }

/-- Source Vec2.translated with a fresh destination. -/
def translated {α : Type} [Add α] (P u : Vec2 α) : Vec2 α := ⟨P.x + u.x, P.y + u.y⟩

/-- Source Vec2.translated with the destination aliased to P. -/
def translatedInPlaceFst {α : Type} [Add α] (P u : Vec2 α) : Vec2 α :=
  let P1 : Vec2 α := { P with x := P.x + u.x }
  { P1 with y := P1.y + u.y }

/-- Source Vec2.translated with the destination aliased to u. -/
def translatedInPlaceSnd {α : Type} [Add α] (P u : Vec2 α) : Vec2 α :=
  let u1 : Vec2 α := { u with x := P.x + u.x }
  { u1 with y := P.y + u1.y }

/-- Source Vec2.scaled with a fresh destination. -/
def scaled {α : Type} [Mul α] (u : Vec2 α) (s : α) : Vec2 α := ⟨u.x * s, u.y * s⟩

/-- Source Vec2.scaled with the destination aliased to u. -/
def scaledInPlace {α : Type} [Mul α] (u : Vec2 α) (s : α) : Vec2 α :=
  let u1 : Vec2 α := { u with x := u.x * s }
  { u1 with y := u1.y * s }

/-- Source Vec2.divided with a fresh destination. -/
def divided {α : Type} [Div α] (u : Vec2 α) (s : α) : Vec2 α := ⟨u.x / s, u.y / s⟩

/-- Source Vec2.divided with the destination aliased to u. -/
def dividedInPlace {α : Type} [Div α] (u : Vec2 α) (s : α) : Vec2 α :=
  let u1 : Vec2 α := { u with x := u.x / s }
  { u1 with y := u1.y / s }

/-- Source Vec2.span with a fresh destination. -/
def span {α : Type} [Sub α] (P Q : Vec2 α) : Vec2 α := ⟨Q.x - P.x, Q.y - P.y⟩

/-- Source Vec2.span with the destination aliased to P. -/
def spanInPlaceFst {α : Type} [Sub α] (P Q : Vec2 α) : Vec2 α :=
  let P1 : Vec2 α := { P with x := Q.x - P.x }
  { P1 with y := Q.y - P1.y }

/-- Source Vec2.span with the destination aliased to Q. -/
def spanInPlaceSnd {α : Type} [Sub α] (P Q : Vec2 α) : Vec2 α :=
  let Q1 : Vec2 α := { Q with x := Q.x - P.x }
  { Q1 with y := Q1.y - P.y }

/-- Source Vec2.min with the destination aliased to u. -/
def minInPlaceFst {α : Type} [Min α] (u v : Vec2 α) : Vec2 α :=
  let u1 : Vec2 α := { u with x := Min.min u.x v.x }
  { u1 with y := Min.min u1.y v.y }

/-- Source Vec2.min with the destination aliased to v. -/
def minInPlaceSnd {α : Type} [Min α] (u v : Vec2 α) : Vec2 α :=
  let v1 : Vec2 α := { v with x := Min.min u.x v.x }
  { v1 with y := Min.min u.y v1.y }

/-- Source Vec2.max with the destination aliased to u. -/
def maxInPlaceFst {α : Type} [Max α] (u v : Vec2 α) : Vec2 α :=
  let u1 : Vec2 α := { u with x := Max.max u.x v.x }
  { u1 with y := Max.max u1.y v.y }

/-- Source Vec2.max with the destination aliased to v. -/
def maxInPlaceSnd {α : Type} [Max α] (u v : Vec2 α) : Vec2 α :=
  let v1 : Vec2 α := { v with x := Max.max u.x v.x }
  { v1 with y := Max.max u.y v1.y }

/-- Source Vec2.mid with a fresh destination (the literal 0.5 is the exact
dyadic one half, F.finite (1/2) in the scalar model). -/
def mid (P Q : Vec2 F) : Vec2 F :=
  ⟨F.finite (1/2) * P.x + F.finite (1/2) * Q.x,
    F.finite (1/2) * P.y + F.finite (1/2) * Q.y⟩

/-- Source Vec2.mid with the destination aliased to P. -/
def midInPlaceFst (P Q : Vec2 F) : Vec2 F :=
  let P1 : Vec2 F := { P with x := F.finite (1/2) * P.x + F.finite (1/2) * Q.x }
  { P1 with y := F.finite (1/2) * P1.y + F.finite (1/2) * Q.y }

/-- Source Vec2.mid with the destination aliased to Q. -/
def midInPlaceSnd (P Q : Vec2 F) : Vec2 F :=
  let Q1 : Vec2 F := { Q with x := F.finite (1/2) * P.x + F.finite (1/2) * Q.x }
  { Q1 with y := F.finite (1/2) * P.y + F.finite (1/2) * Q1.y }

/-- Source Vec2.lerp with a fresh destination: s = 1 - t is computed before
any write. -/
def lerp {α : Type} [One α] [Sub α] [Add α] [Mul α] (u v : Vec2 α) (t : α) : Vec2 α :=
  let s := 1 - t
  ⟨s * u.x + t * v.x, s * u.y + t * v.y⟩

/-- Source Vec2.lerp with the destination aliased to u. -/
def lerpInPlaceFst {α : Type} [One α] [Sub α] [Add α] [Mul α] (u v : Vec2 α) (t : α) : Vec2 α :=
  let s := 1 - t
  let u1 : Vec2 α := { u with x := s * u.x + t * v.x }
  { u1 with y := s * u1.y + t * v.y }

/-- Source Vec2.lerp with the destination aliased to v. -/
def lerpInPlaceSnd {α : Type} [One α] [Sub α] [Add α] [Mul α] (u v : Vec2 α) (t : α) : Vec2 α :=
  let s := 1 - t
  let v1 : Vec2 α := { v with x := s * u.x + t * v.x }
  { v1 with y := s * u.y + t * v1.y }

/-- Source Vec2.floor with a fresh destination. -/
def floor (u : Vec2 F) : Vec2 F := ⟨F.floor u.x, F.floor u.y⟩

/-- Source Vec2.floor with the destination aliased to u. -/
def floorInPlace (u : Vec2 F) : Vec2 F :=
  let u1 : Vec2 F := { u with x := F.floor u.x }
  { u1 with y := F.floor u1.y }

/-- Source Vec2.withLen over the reals with a fresh destination: the scale
factor is computed from u before any write. -/
noncomputable def withLen (u : Vec2 ℝ) (l : ℝ) : Vec2 ℝ :=
  let s := l / Math.hypot u.x u.y
  ⟨u.x * s, u.y * s⟩

/-- Source Vec2.withLen with the destination aliased to u. -/
noncomputable def withLenInPlace (u : Vec2 ℝ) (l : ℝ) : Vec2 ℝ :=
  let s := l / Math.hypot u.x u.y
  let u1 : Vec2 ℝ := { u with x := u.x * s }
  { u1 with y := u1.y * s }

/-- Source Vec2.lengthLimited over the reals with a fresh destination: the
length is computed from u before the branch, then scaled or copy runs. -/
noncomputable def lengthLimited (u : Vec2 ℝ) (maxLength : ℝ) : Vec2 ℝ :=
  let l := Math.hypot u.x u.y
  if l > maxLength then scaled u (maxLength / l) else copy u

/-- Source Vec2.lengthLimited with the destination aliased to u: the inner
scaled or copy call then runs with its destination aliased to its source. -/
noncomputable def lengthLimitedInPlace (u : Vec2 ℝ) (maxLength : ℝ) : Vec2 ℝ :=
  let l := Math.hypot u.x u.y
  if l > maxLength then scaledInPlace u (maxLength / l) else copyInPlace u

end Vec2

namespace Vec3

/-- Source Vec3.copy with a fresh destination. -/
def copy {α : Type} (v : Vec3 α) : Vec3 α := ⟨v.x, v.y, v.z⟩

/-- Source Vec3.copy with the destination aliased to v. -/
def copyInPlace {α : Type} (v : Vec3 α) : Vec3 α :=
  let v1 : Vec3 α := { v with x := v.x }
  let v2 : Vec3 α := { v1 with y := v1.y }
  { v2 with z := v2.z }

/-- Source Vec3.translated with a fresh destination. -/
def translated {α : Type} [Add α] (P u : Vec3 α) : Vec3 α :=
  ⟨P.x + u.x, P.y + u.y, P.z + u.z⟩

/-- Source Vec3.translated with the destination aliased to P. -/
def translatedInPlaceFst {α : Type} [Add α] (P u : Vec3 α) : Vec3 α :=
  let P1 : Vec3 α := { P with x := P.x + u.x }
  let P2 : Vec3 α := { P1 with y := P1.y + u.y }
  { P2 with z := P2.z + u.z }

/-- Source Vec3.translated with the destination aliased to u. -/
def translatedInPlaceSnd {α : Type} [Add α] (P u : Vec3 α) : Vec3 α :=
  let u1 : Vec3 α := { u with x := P.x + u.x }
  let u2 : Vec3 α := { u1 with y := P.y + u1.y }
  { u2 with z := P.z + u2.z }

/-- Source Vec3.scaled with a fresh destination. -/
def scaled {α : Type} [Mul α] (u : Vec3 α) (s : α) : Vec3 α :=
  ⟨u.x * s, u.y * s, u.z * s⟩

/-- Source Vec3.scaled with the destination aliased to u. -/
def scaledInPlace {α : Type} [Mul α] (u : Vec3 α) (s : α) : Vec3 α :=
  let u1 : Vec3 α := { u with x := u.x * s }
  let u2 : Vec3 α := { u1 with y := u1.y * s }
  { u2 with z := u2.z * s }

/-- Source Vec3.span with a fresh destination. -/
def span {α : Type} [Sub α] (P Q : Vec3 α) : Vec3 α :=
  ⟨Q.x - P.x, Q.y - P.y, Q.z - P.z⟩

/-- Source Vec3.span with the destination aliased to P. -/
def spanInPlaceFst {α : Type} [Sub α] (P Q : Vec3 α) : Vec3 α :=
  let P1 : Vec3 α := { P with x := Q.x - P.x }
  let P2 : Vec3 α := { P1 with y := Q.y - P1.y }
  { P2 with z := Q.z - P2.z }

/-- Source Vec3.span with the destination aliased to Q. -/
def spanInPlaceSnd {α : Type} [Sub α] (P Q : Vec3 α) : Vec3 α :=
  let Q1 : Vec3 α := { Q with x := Q.x - P.x }
  let Q2 : Vec3 α := { Q1 with y := Q1.y - P.y }
  { Q2 with z := Q2.z - P.z }

/-- Source Vec3.min with the destination aliased to u. -/
def minInPlaceFst {α : Type} [Min α] (u v : Vec3 α) : Vec3 α :=
  let u1 : Vec3 α := { u with x := Min.min u.x v.x }
  let u2 : Vec3 α := { u1 with y := Min.min u1.y v.y }
  { u2 with z := Min.min u2.z v.z }

/-- Source Vec3.min with the destination aliased to v. -/
def minInPlaceSnd {α : Type} [Min α] (u v : Vec3 α) : Vec3 α :=
  let v1 : Vec3 α := { v with x := Min.min u.x v.x }
  let v2 : Vec3 α := { v1 with y := Min.min u.y v1.y }
  { v2 with z := Min.min u.z v2.z }

/-- Source Vec3.max with the destination aliased to u. -/
def maxInPlaceFst {α : Type} [Max α] (u v : Vec3 α) : Vec3 α :=
  let u1 : Vec3 α := { u with x := Max.max u.x v.x }
  let u2 : Vec3 α := { u1 with y := Max.max u1.y v.y }
  { u2 with z := Max.max u2.z v.z }

/-- Source Vec3.max with the destination aliased to v. -/
def maxInPlaceSnd {α : Type} [Max α] (u v : Vec3 α) : Vec3 α :=
  let v1 : Vec3 α := { v with x := Max.max u.x v.x }
  let v2 : Vec3 α := { v1 with y := Max.max u.y v1.y }
  { v2 with z := Max.max u.z v2.z }

/-- Source Vec3.mid with a fresh destination. -/
def mid (P Q : Vec3 F) : Vec3 F :=
  ⟨F.finite (1/2) * P.x + F.finite (1/2) * Q.x,
    F.finite (1/2) * P.y + F.finite (1/2) * Q.y,
    F.finite (1/2) * P.z + F.finite (1/2) * Q.z⟩

/-- Source Vec3.mid with the destination aliased to P. -/
def midInPlaceFst (P Q : Vec3 F) : Vec3 F :=
  let P1 : Vec3 F := { P with x := F.finite (1/2) * P.x + F.finite (1/2) * Q.x }
  let P2 : Vec3 F := { P1 with y := F.finite (1/2) * P1.y + F.finite (1/2) * Q.y }
  { P2 with z := F.finite (1/2) * P2.z + F.finite (1/2) * Q.z }

/-- Source Vec3.mid with the destination aliased to Q. -/
def midInPlaceSnd (P Q : Vec3 F) : Vec3 F :=
  let Q1 : Vec3 F := { Q with x := F.finite (1/2) * P.x + F.finite (1/2) * Q.x }
  let Q2 : Vec3 F := { Q1 with y := F.finite (1/2) * P.y + F.finite (1/2) * Q1.y }
  { Q2 with z := F.finite (1/2) * P.z + F.finite (1/2) * Q2.z }

end Vec3

namespace Box2

/-- Source Box2.copy with a fresh destination. -/
def copy (B : Box2 F) : Box2 F := ⟨Vec2.copy B.P0, Vec2.copy B.P1⟩

/-- Source Box2.copy with the destination aliased to B itself: both inner
Vec2.copy calls then run with their destination aliased to their source. -/
def copyInPlace (B : Box2 F) : Box2 F :=
  let B1 : Box2 F := { B with P0 := Vec2.copyInPlace B.P0 }
  { B1 with P1 := Vec2.copyInPlace B1.P1 }

/-- Source Box2.wrapping with a destination that aliases none of the input
boxes: resets the destination to empty, then folds expandByBox over the
inputs (the prior destination content is overwritten and never read). -/
def wrapping (Bs : List (Box2 F)) (_dst : Box2 F) : Box2 F :=
  Bs.foldl (fun b C => ⟨Vec2.min b.P0 C.P0, Vec2.max b.P1 C.P1⟩) Box2.empty

/-- Source Box2.wrapping called as wrapping([B], B), with the destination
the same storage as the single input box, executed statement by statement:
empty(_) overwrites the box before the loop reads it, so expandByBox sees
the sentinel corners instead of the original ones. -/
def wrappingSelfSingleton (_B : Box2 F) : Box2 F :=
  let b1 : Box2 F := Box2.empty
  ⟨Vec2.min b1.P0 b1.P0, Vec2.max b1.P1 b1.P1⟩

end Box2

/-- Source MatA.rotateX executed statement by statement: all eight affected
entries are saved into locals from the original matrix before any write, so
the eight sequential writes can be compared with the simultaneous update of
MatA.rotateX. -/
noncomputable def MatA.rotateXSeq (A : MatA ℝ) (angle : ℝ) : MatA ℝ :=
  let c := Real.cos angle
  let s := Real.sin angle
  let r00 := A.a10
  let r01 := A.a11
  let r02 := A.a12
  let r03 := A.a13
  let r10 := A.a20
  let r11 := A.a21
  let r12 := A.a22
  let r13 := A.a23
  let A1 : MatA ℝ := { A with a10 := c * r00 - s * r10 }
  let A2 : MatA ℝ := { A1 with a11 := c * r01 - s * r11 }
  let A3 : MatA ℝ := { A2 with a12 := c * r02 - s * r12 }
  let A4 : MatA ℝ := { A3 with a13 := c * r03 - s * r13 }
  let A5 : MatA ℝ := { A4 with a20 := c * r10 + s * r00 }
  let A6 : MatA ℝ := { A5 with a21 := c * r11 + s * r01 }
  let A7 : MatA ℝ := { A6 with a22 := c * r12 + s * r02 }
  { A7 with a23 := c * r13 + s * r03 }

namespace F

theorem finite_add_finite (a b : ℚ) : F.finite a + F.finite b = F.finite (a + b) := rfl

theorem finite_mul_finite (a b : ℚ) : F.finite a * F.finite b = F.finite (a * b) := rfl

theorem finite_neg (a : ℚ) : -(F.finite a) = F.finite (-a) := rfl

theorem finite_div_finite (a b : ℚ) (h : b ≠ 0) :
    F.finite a / F.finite b = F.finite (a / b) := by
  show F.div (F.finite a) (F.finite b) = F.finite (a / b)
  simp [F.div, h]

theorem zero_def : (0 : F) = F.finite 0 := rfl

theorem one_def : (1 : F) = F.finite 1 := rfl

theorem finite_div_one (a : ℚ) : F.finite a / F.finite 1 = F.finite a := by
  rw [finite_div_finite a 1 one_ne_zero]
  norm_num

end F

theorem mem_intsUpTo {lo : ℤ} {hi : ℚ} {z : ℤ} :
    z ∈ intsUpTo lo hi ↔ lo ≤ z ∧ (z : ℚ) ≤ hi := by
  unfold intsUpTo
  rw [show ((z : ℚ) ≤ hi) = (z ≤ ⌊hi⌋) from propext Int.le_floor.symm]
  simp only [List.mem_map, List.mem_range]
  constructor
  · rintro ⟨i, hlt, rfl⟩
    omega
  · intro h
    exact ⟨(z - lo).toNat, by omega, by omega⟩

theorem pairwise_intsUpTo (lo : ℤ) (hi : ℚ) :
    (intsUpTo lo hi).Pairwise (· < ·) := by
  unfold intsUpTo
  exact List.Pairwise.map _ (fun a b (h : a < b) => by omega) (List.pairwise_lt_range _)

theorem mem_crossColex {xs ys : List ℤ} {p : ℤ × ℤ} :
    p ∈ crossColex xs ys ↔ p.1 ∈ xs ∧ p.2 ∈ ys := by
  induction xs with
  | nil => simp [crossColex]
  | cons x rest ih =>
      obtain ⟨p1, p2⟩ := p
      simp only [crossColex, List.mem_append, List.mem_map, List.mem_cons, ih]
      constructor
      · rintro (⟨y, hy, heq⟩ | ⟨h1, h2⟩)
        · obtain ⟨rfl, rfl⟩ := Prod.mk.injEq .. ▸ And.intro (congrArg Prod.fst heq) (congrArg Prod.snd heq)
          exact ⟨Or.inl rfl, hy⟩
        · exact ⟨Or.inr h1, h2⟩
      · rintro ⟨rfl | h1, h2⟩
        · exact Or.inl ⟨p2, h2, rfl⟩
        · exact Or.inr ⟨h1, h2⟩

theorem pairwise_crossColex {xs ys : List ℤ}
    (hx : xs.Pairwise (· < ·)) (hy : ys.Pairwise (· < ·)) :
    (crossColex xs ys).Pairwise xyLexLt := by
  induction xs with
  | nil => exact List.Pairwise.nil
  | cons x rest ih =>
      obtain ⟨hhead, htail⟩ := List.pairwise_cons.mp hx
      rw [crossColex, List.pairwise_append]
      refine ⟨?_, ih htail, ?_⟩
      · exact List.Pairwise.map _ (fun a b h => Or.inr ⟨rfl, h⟩) hy
      · rintro a ha b hb
        obtain ⟨ya, _, rfl⟩ := List.mem_map.mp ha
        have hb1 : b.1 ∈ rest := (mem_crossColex.mp hb).1
        exact Or.inl (hhead b.1 hb1)

/-- C1: for admissible parameters, perspective returns exactly the claimed
row-major matrix, with c0 equal to near divided by the tangent of half the
fovy in radians, c1 equal to c0 times height over width, the third row
encoding the near/far range, and the fourth row 0 0 -1 0. -/
theorem perspective_matrix_spec (fovy width height near far : ℝ)
    (_h1 : 0 < fovy) (_h2 : fovy < 180) (_h3 : 0 < width) (_h4 : 0 < height)
    (_h5 : 0 < near) (_h6 : near < far) :
    Mat4.perspective fovy width height near far =
      ⟨near / Real.tan (fovy * (Real.pi / 180) / 2) * height / width, 0, 0, 0,
        0, near / Real.tan (fovy * (Real.pi / 180) / 2), 0, 0,
        0, 0, -(near + far) / (far - near), -(2 * near * far) / (far - near),
        0, 0, -1, 0⟩ := by
  have harg : 0.5 * fovy * DEG_TO_RAD = fovy * (Real.pi / 180) / 2 := by
    unfold DEG_TO_RAD
    ring
  dsimp only [Mat4.perspective]
  rw [harg]
  congr 1
  ring

/-- C1 witness: the hypotheses hold and the theorem applies at fovy 90,
width 1, height 1, near 1, far 100. -/
theorem perspective_matrix_spec_witness :
    (0 : ℝ) < 90 ∧ (90 : ℝ) < 180 ∧ (0 : ℝ) < 1 ∧ (0 : ℝ) < 1 ∧ (0 : ℝ) < 1 ∧
      (1 : ℝ) < 100 ∧
      Mat4.perspective 90 1 1 1 100 =
        ⟨1 / Real.tan (90 * (Real.pi / 180) / 2) * 1 / 1, 0, 0, 0,
          0, 1 / Real.tan (90 * (Real.pi / 180) / 2), 0, 0,
          0, 0, -(1 + 100) / (100 - 1), -(2 * 1 * 100) / (100 - 1),
          0, 0, -1, 0⟩ :=
  ⟨by norm_num, by norm_num, by norm_num, by norm_num, by norm_num, by norm_num,
    perspective_matrix_spec 90 1 1 1 100 (by norm_num) (by norm_num) (by norm_num)
      (by norm_num) (by norm_num) (by norm_num)⟩

/-- C2: transformPoint computes the weight w from the last row and divides
each transformed row by w, for every matrix and point; the division is not
guarded, and division of a finite value by zero yields a signed infinity
(NaN for zero over zero) in the IEEE scalar model. -/
theorem transformPoint_homogeneous_divide :
    (∀ (M : Mat4 F) (P : Vec3 F),
        Mat4.transformPoint M P =
          ⟨(M.a00 * P.x + M.a01 * P.y + M.a02 * P.z + M.a03) /
              (M.a30 * P.x + M.a31 * P.y + M.a32 * P.z + M.a33),
            (M.a10 * P.x + M.a11 * P.y + M.a12 * P.z + M.a13) /
              (M.a30 * P.x + M.a31 * P.y + M.a32 * P.z + M.a33),
            (M.a20 * P.x + M.a21 * P.y + M.a22 * P.z + M.a23) /
              (M.a30 * P.x + M.a31 * P.y + M.a32 * P.z + M.a33)⟩) ∧
    F.finite 1 / F.finite 0 = F.inf ∧
    F.finite (-1) / F.finite 0 = F.neginf ∧
    F.finite 0 / F.finite 0 = F.nan := by
  refine ⟨fun M P => rfl, by decide, by decide, by decide⟩

/-- C3: over a box with finite corners, integerPoints yields exactly the
lattice points with floor x0 ≤ x ≤ x1 and floor y0 ≤ y ≤ y1 (lower bounds
floored, upper bounds not), in strictly ascending column-major order
(x-major, then y). -/
theorem integerPoints_lattice_spec :
    ∀ x0 y0 x1 y1 : ℚ,
      (∀ p : ℤ × ℤ,
          p ∈ Box2.integerPoints
              ⟨⟨F.finite x0, F.finite y0⟩, ⟨F.finite x1, F.finite y1⟩⟩ ↔
            (⌊x0⌋ ≤ p.1 ∧ (p.1 : ℚ) ≤ x1 ∧ ⌊y0⌋ ≤ p.2 ∧ (p.2 : ℚ) ≤ y1)) ∧
      (Box2.integerPoints
          ⟨⟨F.finite x0, F.finite y0⟩, ⟨F.finite x1, F.finite y1⟩⟩).Pairwise xyLexLt := by
  intro x0 y0 x1 y1
  constructor
  · intro p
    show p ∈ crossColex (intsUpTo ⌊x0⌋ x1) (intsUpTo ⌊y0⌋ y1) ↔ _
    rw [mem_crossColex, mem_intsUpTo, mem_intsUpTo]
    tauto
  · show (crossColex (intsUpTo ⌊x0⌋ x1) (intsUpTo ⌊y0⌋ y1)).Pairwise xyLexLt
    exact pairwise_crossColex (pairwise_intsUpTo _ _) (pairwise_intsUpTo _ _)

/-- C4 counterexample: over the box with corners (1/2, 1/2) and (2, 2) the
source loops start at floor (1/2) = 0, so the yielded sequence is NOT the
4-point list claimed. -/
theorem integerPoints_example_counterexample :
    Box2.integerPoints
        ⟨⟨F.finite (1/2), F.finite (1/2)⟩, ⟨F.finite 2, F.finite 2⟩⟩ ≠
      [(1, 1), (1, 2), (2, 1), (2, 2)] := by
  have h1 : ⌊(1/2 : ℚ)⌋ = 0 := by norm_num
  have h2 : ⌊(2 : ℚ)⌋ = 2 := by norm_num
  show crossColex (intsUpTo ⌊(1/2 : ℚ)⌋ (2 : ℚ)) (intsUpTo ⌊(1/2 : ℚ)⌋ (2 : ℚ)) ≠ _
  unfold intsUpTo
  rw [h1, h2]
  decide

/-- C4 amended: over the box with corners (1/2, 1/2) and (2, 2),
integerPoints yields exactly the 9 points with coordinates in 0..2, in
column-major order. -/
theorem integerPoints_example :
    Box2.integerPoints
        ⟨⟨F.finite (1/2), F.finite (1/2)⟩, ⟨F.finite 2, F.finite 2⟩⟩ =
      [(0, 0), (0, 1), (0, 2), (1, 0), (1, 1), (1, 2), (2, 0), (2, 1), (2, 2)] := by
  have h1 : ⌊(1/2 : ℚ)⌋ = 0 := by norm_num
  have h2 : ⌊(2 : ℚ)⌋ = 2 := by norm_num
  show crossColex (intsUpTo ⌊(1/2 : ℚ)⌋ (2 : ℚ)) (intsUpTo ⌊(1/2 : ℚ)⌋ (2 : ℚ)) = _
  unfold intsUpTo
  rw [h1, h2]
  decide

/-- C5 counterexample: with an empty input list and an already-populated
destination (the degenerate box at the origin), Box3.fromPoints returns the
destination unchanged, not the empty box with infinite corners that the
claim requires. -/
theorem fromPoints_populated_dest_counterexample :
    Box3.fromPoints []
        ⟨⟨F.finite 0, F.finite 0, F.finite 0⟩, ⟨F.finite 0, F.finite 0, F.finite 0⟩⟩ =
      ⟨⟨F.finite 0, F.finite 0, F.finite 0⟩, ⟨F.finite 0, F.finite 0, F.finite 0⟩⟩ ∧
    Box3.fromPoints []
        ⟨⟨F.finite 0, F.finite 0, F.finite 0⟩, ⟨F.finite 0, F.finite 0, F.finite 0⟩⟩ ≠
      Box3.empty := by
  exact ⟨rfl, by decide⟩

/-- C5 amended: Box2.fromPoints always folds expansion starting from the
empty box, regardless of the destination; Box3.fromPoints folds expansion
starting from the given destination (so a populated destination is expanded,
not reset); for an empty input list Box2.fromPoints yields the empty box and
Box3.fromPoints returns its destination unchanged, in particular the empty
box when the destination is the (default) empty box. -/
theorem fromPoints_fold_spec :
    (∀ (Ps : List (Vec2 F)) (dst : Box2 F),
        Box2.fromPoints Ps dst = Ps.foldl Box2.expand Box2.empty) ∧
    (∀ (Ps : List (Vec3 F)) (dst : Box3 F),
        Box3.fromPoints Ps dst =
          Ps.foldl (fun b P => ⟨Vec3.min b.P0 P, Vec3.max b.P1 P⟩) dst) ∧
    (∀ dst : Box2 F, Box2.fromPoints [] dst = Box2.empty) ∧
    (∀ (Ps : List (Vec3 F)), Box3.fromPoints Ps Box3.empty =
        Ps.foldl (fun b P => ⟨Vec3.min b.P0 P, Vec3.max b.P1 P⟩) Box3.empty) := by
  exact ⟨fun Ps dst => rfl, fun Ps dst => rfl, fun dst => rfl, fun Ps => rfl⟩

/-- C6: containsInEx is the half-open membership test, lower bounds
inclusive and upper bounds exclusive on both axes; in particular for the
unit box the corner at the origin is contained and the opposite corner is
not. -/
theorem containsInEx_half_open :
    (∀ b0x b0y b1x b1y px py : ℚ,
        Box2.containsInEx ⟨⟨F.finite b0x, F.finite b0y⟩, ⟨F.finite b1x, F.finite b1y⟩⟩
            ⟨F.finite px, F.finite py⟩ = true ↔
          (b0x ≤ px ∧ px < b1x ∧ b0y ≤ py ∧ py < b1y)) ∧
    Box2.containsInEx ⟨⟨F.finite 0, F.finite 0⟩, ⟨F.finite 1, F.finite 1⟩⟩
        ⟨F.finite 0, F.finite 0⟩ = true ∧
    Box2.containsInEx ⟨⟨F.finite 0, F.finite 0⟩, ⟨F.finite 1, F.finite 1⟩⟩
        ⟨F.finite 1, F.finite 1⟩ = false := by
  refine ⟨?_, by decide, by decide⟩
  intro b0x b0y b1x b1y px py
  simp [Box2.containsInEx, F.le, F.lt, Bool.and_eq_true, decide_eq_true_eq, and_assoc]

/-- C7: every MatA mutator and every forwarding MatAComposer method leaves
the last row (entries 12..15) exactly as it was, for every input matrix; in
particular a last row equal to 0 0 0 1 beforehand is 0 0 0 1 afterwards. -/
theorem matA_last_row_invariant :
    (∀ (A : MatA ℝ) (u : Vec3 ℝ), (MatA.translate A u).lastRow = A.lastRow) ∧
    (∀ (A : MatA ℝ) (s : ℝ), (MatA.scaleX A s).lastRow = A.lastRow) ∧
    (∀ (A : MatA ℝ) (s : ℝ), (MatA.scaleY A s).lastRow = A.lastRow) ∧
    (∀ (A : MatA ℝ) (s : ℝ), (MatA.scaleZ A s).lastRow = A.lastRow) ∧
    (∀ (A : MatA ℝ) (s : ℝ), (MatA.scale A s).lastRow = A.lastRow) ∧
    (∀ (A : MatA ℝ) (u : Vec3 ℝ), (MatA.scaleVector A u).lastRow = A.lastRow) ∧
    (∀ (A : MatA ℝ) (angle : ℝ), (MatA.rotateX A angle).lastRow = A.lastRow) ∧
    (∀ (A : MatA ℝ) (angle : ℝ), (MatA.rotateY A angle).lastRow = A.lastRow) ∧
    (∀ (A : MatA ℝ) (angle : ℝ), (MatA.rotateZ A angle).lastRow = A.lastRow) ∧
    (∀ (c : MatAComposer ℝ) (u : Vec3 ℝ), (c.translate u).get.lastRow = c.get.lastRow) ∧
    (∀ (c : MatAComposer ℝ) (s : ℝ), (c.scaleX s).get.lastRow = c.get.lastRow) ∧
    (∀ (c : MatAComposer ℝ) (s : ℝ), (c.scaleY s).get.lastRow = c.get.lastRow) ∧
    (∀ (c : MatAComposer ℝ) (s : ℝ), (c.scaleZ s).get.lastRow = c.get.lastRow) ∧
    (∀ (c : MatAComposer ℝ) (s : ℝ), (c.scale s).get.lastRow = c.get.lastRow) ∧
    (∀ (c : MatAComposer ℝ) (u : Vec3 ℝ), (c.scaleVector u).get.lastRow = c.get.lastRow) ∧
    (∀ (c : MatAComposer ℝ) (angle : ℝ), (c.rotateX angle).get.lastRow = c.get.lastRow) ∧
    (∀ (c : MatAComposer ℝ) (angle : ℝ), (c.rotateY angle).get.lastRow = c.get.lastRow) ∧
    (∀ (c : MatAComposer ℝ) (angle : ℝ), (c.rotateZ angle).get.lastRow = c.get.lastRow) := by
  exact ⟨fun _ _ => rfl, fun _ _ => rfl, fun _ _ => rfl, fun _ _ => rfl, fun _ _ => rfl,
    fun _ _ => rfl, fun _ _ => rfl, fun _ _ => rfl, fun _ _ => rfl, fun _ _ => rfl,
    fun _ _ => rfl, fun _ _ => rfl, fun _ _ => rfl, fun _ _ => rfl, fun _ _ => rfl,
    fun _ _ => rfl, fun _ _ => rfl, fun _ _ => rfl⟩

/-- C8: starting from the identity, pre-translating by a finite vector u
and transforming the origin through the general homogeneous transformPoint
yields exactly u: the weight is exactly 1 and each component exact. -/
theorem translate_transform_origin_exact :
    ∀ ux uy uz : ℚ,
      Mat4.transformPoint
          (MatA.translate MatA.eye ⟨F.finite ux, F.finite uy, F.finite uz⟩)
          ⟨F.finite 0, F.finite 0, F.finite 0⟩ =
        ⟨F.finite ux, F.finite uy, F.finite uz⟩ := by
  intro ux uy uz
  simp only [Mat4.transformPoint, MatA.translate, MatA.eye, F.zero_def, F.one_def,
    F.finite_mul_finite, F.finite_add_finite]
  norm_num [F.finite_div_one]

/-- C9 counterexample: Box2.wrapping writes the destination (via empty)
before reading the input boxes, so calling it with the destination aliased
to its single input box (traced in wrappingSelfSingleton) yields the empty
box, while the fresh-destination call returns that box itself. -/
theorem aliased_wrapping_counterexample :
    Box2.wrappingSelfSingleton
        ⟨⟨F.finite 1, F.finite 2⟩, ⟨F.finite 3, F.finite 4⟩⟩ = Box2.empty ∧
    Box2.wrapping [⟨⟨F.finite 1, F.finite 2⟩, ⟨F.finite 3, F.finite 4⟩⟩] Box2.empty =
      ⟨⟨F.finite 1, F.finite 2⟩, ⟨F.finite 3, F.finite 4⟩⟩ ∧
    Box2.wrappingSelfSingleton
        ⟨⟨F.finite 1, F.finite 2⟩, ⟨F.finite 3, F.finite 4⟩⟩ ≠
      Box2.wrapping [⟨⟨F.finite 1, F.finite 2⟩, ⟨F.finite 3, F.finite 4⟩⟩] Box2.empty := by
  exact ⟨by decide, by decide, by decide⟩

/-- C9 amended: every optional-destination operation of the kernel except
Box2.wrapping and Box2.fromPoints (which reset the destination to empty
before reading their inputs) reads all needed source components before any
destination write, so calling it with the destination aliased to a source
operand produces the same component values as calling it with a fresh
destination.  The conjunction enumerates every such operation with every
aliasable operand: Vec2 copy, sum, diff, translated, scaled, divided, span,
min, max, mid, lerp, floor, lper, withLen, lengthLimited; Vec3 copy,
translated, scaled, span, min, max, mid; Mat2A.transformPoint; Box2.copy;
and the locals-first sequential execution of MatA.rotateX, which reproduces
the simultaneous rotation. -/
theorem aliased_destination_read_before_write :
    (∀ u : Vec2 F, Vec2.copyInPlace u = Vec2.copy u) ∧
    (∀ u v : Vec2 F, Vec2.sumInPlaceFst u v = Vec2.sum u v) ∧
    (∀ u v : Vec2 F, Vec2.sumInPlaceSnd u v = Vec2.sum u v) ∧
    (∀ u v : Vec2 F, Vec2.diffInPlaceFst u v = Vec2.diff u v) ∧
    (∀ u v : Vec2 F, Vec2.diffInPlaceSnd u v = Vec2.diff u v) ∧
    (∀ P u : Vec2 F, Vec2.translatedInPlaceFst P u = Vec2.translated P u) ∧
    (∀ P u : Vec2 F, Vec2.translatedInPlaceSnd P u = Vec2.translated P u) ∧
    (∀ (u : Vec2 F) (s : F), Vec2.scaledInPlace u s = Vec2.scaled u s) ∧
    (∀ (u : Vec2 F) (s : F), Vec2.dividedInPlace u s = Vec2.divided u s) ∧
    (∀ P Q : Vec2 F, Vec2.spanInPlaceFst P Q = Vec2.span P Q) ∧
    (∀ P Q : Vec2 F, Vec2.spanInPlaceSnd P Q = Vec2.span P Q) ∧
    (∀ u v : Vec2 F, Vec2.minInPlaceFst u v = Vec2.min u v) ∧
    (∀ u v : Vec2 F, Vec2.minInPlaceSnd u v = Vec2.min u v) ∧
    (∀ u v : Vec2 F, Vec2.maxInPlaceFst u v = Vec2.max u v) ∧
    (∀ u v : Vec2 F, Vec2.maxInPlaceSnd u v = Vec2.max u v) ∧
    (∀ P Q : Vec2 F, Vec2.midInPlaceFst P Q = Vec2.mid P Q) ∧
    (∀ P Q : Vec2 F, Vec2.midInPlaceSnd P Q = Vec2.mid P Q) ∧
    (∀ (u v : Vec2 F) (t : F), Vec2.lerpInPlaceFst u v t = Vec2.lerp u v t) ∧
    (∀ (u v : Vec2 F) (t : F), Vec2.lerpInPlaceSnd u v t = Vec2.lerp u v t) ∧
    (∀ u : Vec2 F, Vec2.floorInPlace u = Vec2.floor u) ∧
    (∀ u : Vec2 F, Vec2.lperInPlace u = Vec2.lper u) ∧
    (∀ (u : Vec2 ℝ) (l : ℝ), Vec2.withLenInPlace u l = Vec2.withLen u l) ∧
    (∀ (u : Vec2 ℝ) (m : ℝ), Vec2.lengthLimitedInPlace u m = Vec2.lengthLimited u m) ∧
    (∀ v : Vec3 F, Vec3.copyInPlace v = Vec3.copy v) ∧
    (∀ P u : Vec3 F, Vec3.translatedInPlaceFst P u = Vec3.translated P u) ∧
    (∀ P u : Vec3 F, Vec3.translatedInPlaceSnd P u = Vec3.translated P u) ∧
    (∀ (u : Vec3 F) (s : F), Vec3.scaledInPlace u s = Vec3.scaled u s) ∧
    (∀ P Q : Vec3 F, Vec3.spanInPlaceFst P Q = Vec3.span P Q) ∧
    (∀ P Q : Vec3 F, Vec3.spanInPlaceSnd P Q = Vec3.span P Q) ∧
    (∀ u v : Vec3 F, Vec3.minInPlaceFst u v = Vec3.min u v) ∧
    (∀ u v : Vec3 F, Vec3.minInPlaceSnd u v = Vec3.min u v) ∧
    (∀ u v : Vec3 F, Vec3.maxInPlaceFst u v = Vec3.max u v) ∧
    (∀ u v : Vec3 F, Vec3.maxInPlaceSnd u v = Vec3.max u v) ∧
    (∀ P Q : Vec3 F, Vec3.midInPlaceFst P Q = Vec3.mid P Q) ∧
    (∀ P Q : Vec3 F, Vec3.midInPlaceSnd P Q = Vec3.mid P Q) ∧
    (∀ (M : Mat2A F) (P : Vec2 F),
      Mat2A.transformPointInPlace M P = Mat2A.transformPoint M P) ∧
    (∀ B : Box2 F, Box2.copyInPlace B = Box2.copy B) ∧
    (∀ (A : MatA ℝ) (angle : ℝ), MatA.rotateXSeq A angle = MatA.rotateX A angle) := by
  exact ⟨fun _ => rfl, fun _ _ => rfl, fun _ _ => rfl, fun _ _ => rfl, fun _ _ => rfl,
    fun _ _ => rfl, fun _ _ => rfl, fun _ _ => rfl, fun _ _ => rfl, fun _ _ => rfl,
    fun _ _ => rfl, fun _ _ => rfl, fun _ _ => rfl, fun _ _ => rfl, fun _ _ => rfl,
    fun _ _ => rfl, fun _ _ => rfl, fun _ _ _ => rfl, fun _ _ _ => rfl, fun _ => rfl,
    fun _ => rfl, fun _ _ => rfl, fun _ _ => rfl, fun _ => rfl, fun _ _ => rfl,
    fun _ _ => rfl, fun _ _ => rfl, fun _ _ => rfl, fun _ _ => rfl, fun _ _ => rfl,
    fun _ _ => rfl, fun _ _ => rfl, fun _ _ => rfl, fun _ _ => rfl, fun _ _ => rfl,
    fun _ _ => rfl, fun _ => rfl, fun _ _ => rfl⟩

/-- C10: the constructor int fails exactly on non-integral scalars (NaN and
the infinities included) and returns an integral argument unchanged.  Every
other kernel operation is embedded as a total function. -/
theorem int_validation_spec :
    (∀ n : F, int n = Except.ok n ↔ ∃ m : ℤ, n = F.finite (m : ℚ)) ∧
    (∀ n : F, int n = Except.error "not an integer" ↔ ¬ ∃ m : ℤ, n = F.finite (m : ℚ)) := by
  have key : ∀ n : F, (Number.isInteger n = true) ↔ ∃ m : ℤ, n = F.finite (m : ℚ) := by
    intro n
    cases n with
    | nan => simp [Number.isInteger]
    | neginf => simp [Number.isInteger]
    | inf => simp [Number.isInteger]
    | finite q =>
        simp only [Number.isInteger, decide_eq_true_eq, F.finite.injEq]
        constructor
        · intro h
          exact ⟨q.num, (Rat.coe_int_num_of_den_eq_one h).symm⟩
        · rintro ⟨m, rfl⟩
          exact Rat.den_intCast m
  refine ⟨fun n => ?_, fun n => ?_⟩ <;>
    (rw [← key n]; unfold int; cases hni : Number.isInteger n <;> simp [hni])
